import Mathlib

namespace TRECollect

/-- Python `str.startswith`: character-level prefix test. -/
def py_startswith (s pre : String) : Bool :=
  pre.data.isPrefixOf s.data

/-- Python `str.endswith`: character-level suffix test. -/
def py_endswith (s suf : String) : Bool :=
  suf.data.isSuffixOf s.data

/-- Python `os.path.basename`: the part of the path after the last slash. -/
def py_basename (p : String) : String :=
  String.mk ((p.data.reverse.takeWhile (fun c => c ≠ '/')).reverse)

/-- A JSON object is modelled as an association list of string keys to
field values.  Only `id` and `version` are ever extracted, and each is
interpolated into an f-string, so values are kept in their rendered
string form. -/
def Doc := List (String × String)

instance : DecidableEq Doc := by
  unfold Doc
  exact inferInstance

/-- Python `doc[key]` lookup, `none` when the key is absent (KeyError). -/
def lookupField (doc : Doc) (key : String) : Option String :=
  (doc.find? (fun kv => kv.1 = key)).map (fun kv => kv.2)

/-- Result of `filter_relevant_files`: the dict
`{"logsheets": [...], "teams": [...], "images": [...]}`. -/
structure Categories where
  logsheets : List String
  teams : List String
  images : List String
deriving DecidableEq

/-- First classifier rule (line 131): `logsheets/` prefix and `.json` suffix. -/
def rule_logsheet (p : String) : Bool :=
  py_startswith p "logsheets/" && py_endswith p ".json"

/-- Second classifier rule (line 133): `teams/` prefix and `.json` suffix. -/
def rule_team (p : String) : Bool :=
  py_startswith p "teams/" && py_endswith p ".json"

/-- Third classifier rule (line 135): `images/` prefix. -/
def rule_image (p : String) : Bool :=
  py_startswith p "images/"

/-- `filter_relevant_files` (src/upload_to_owncloud.py:123-138): the loop
appends each path to the first category whose rule matches, in the order
logsheets, teams, images, and discards non-matching paths. -/
def filter_relevant_files : List String → Categories
  | [] => ⟨[], [], []⟩
  | p :: rest =>
    let r := filter_relevant_files rest
    if rule_logsheet p then
      ⟨p :: r.logsheets, r.teams, r.images⟩
    else if rule_team p then
      ⟨r.logsheets, p :: r.teams, r.images⟩
    else if rule_image p then
      ⟨r.logsheets, r.teams, p :: r.images⟩
    else
      r

/-- First-match-wins guard for the team category: rule 2 fires only when
rule 1 did not. -/
def cat_team (p : String) : Bool :=
  !rule_logsheet p && rule_team p

/-- First-match-wins guard for the image category: rule 3 fires only when
rules 1 and 2 did not. -/
def cat_image (p : String) : Bool :=
  !rule_logsheet p && !rule_team p && rule_image p

/-- `main` line 224-225: JSON candidates come from `list(set(changed + new))`. -/
def json_candidates (changed new : List String) : Categories :=
  filter_relevant_files ((changed ++ new).dedup)

/-- `main` line 228: image candidates come from `new_files` alone. -/
def image_candidates (new : List String) : Categories :=
  filter_relevant_files new

/-- Remote destination for a logsheet record (`process_logsheet`, line 196). -/
def logsheet_remote_path (i v : String) : String :=
  "logsheets/" ++ i ++ "/" ++ v ++ ".json"

/-- Remote destination for a team record (`process_team`, line 203). -/
def team_remote_path (i v : String) : String :=
  "teams/" ++ i ++ "/" ++ v ++ ".json"

/-- Remote destination for an image (`process_image`, lines 209-210). -/
def image_remote_path (p : String) : String :=
  "images/" ++ py_basename p

/-- Errors raised while processing one file of the batch. -/
inductive ProcErr where
  | malformed (path : String)
  | missingField (path key : String)
deriving DecidableEq

/-- The local filesystem, as far as the record reader sees it: each path
maps to its parsed JSON object, or `none` when the file is unreadable or
not valid JSON (`read_json_file` then raises). -/
def Fs := String → Option Doc

/-- `process_logsheet` (lines 193-197): read the file, extract `id` then
`version` (a missing key raises KeyError, `id` first as the f-string
evaluates left to right), and produce the upload `(local, remote)` pair. -/
def process_logsheet (fs : Fs) (p : String) : Except ProcErr (String × String) :=
  match fs p with
  | none => .error (.malformed p)
  | some doc =>
    match lookupField doc "id" with
    | none => .error (.missingField p "id")
    | some i =>
      match lookupField doc "version" with
      | none => .error (.missingField p "version")
      | some v => .ok (p, logsheet_remote_path i v)

/-- `process_team` (lines 200-204), same shape as `process_logsheet`. -/
def process_team (fs : Fs) (p : String) : Except ProcErr (String × String) :=
  match fs p with
  | none => .error (.malformed p)
  | some doc =>
    match lookupField doc "id" with
    | none => .error (.missingField p "id")
    | some i =>
      match lookupField doc "version" with
      | none => .error (.missingField p "version")
      | some v => .ok (p, team_remote_path i v)

/-- `process_image` (lines 207-211): no record is read, the upload pair is
built from the filename alone. -/
def process_image (_fs : Fs) (p : String) : Except ProcErr (String × String) :=
  .ok (p, image_remote_path p)

/-- `requests.Response.raise_for_status`: raises exactly when the HTTP
status code is in the 4xx or 5xx range. -/
def raise_for_status (status : Nat) : Bool :=
  400 ≤ status && status < 600

/-- `create_directory` lines 189-190: after a MKCOL request, the run aborts
iff the status is outside `[201, 405]` AND `raise_for_status` raises. -/
def mkcol_aborts (status : Nat) : Bool :=
  !(status == 201 || status == 405) && raise_for_status status

/-- Python `remote_path.split('/')`: character-level split on slashes. -/
def py_split_slash (p : String) : List String :=
  (p.data.splitOn '/').map String.mk

/-- The segment loop of `create_directory` (lines 176-190): issue one MKCOL
per cumulative path prefix, skipping empty parts; `false` as soon as one
MKCOL status aborts. -/
def create_directory_loop (statusOf : String → Nat) (current : String) :
    List String → Bool
  | [] => true
  | part :: rest =>
    if part = "" then create_directory_loop statusOf current rest
    else
      let current' := if current = "" then part else current ++ "/" ++ part
      if mkcol_aborts (statusOf current') then false
      else create_directory_loop statusOf current' rest

/-- `create_directory` (lines 166-190) over a status oracle: walks the
segments of `remote_path` (after `strip('/')` and `split('/')`), issuing
one MKCOL per cumulative prefix; returns `true` when every MKCOL is
tolerated and the run goes on. -/
def create_directory (statusOf : String → Nat) (remote_path : String) : Bool :=
  if remote_path = "" then true
  else create_directory_loop statusOf "" (py_split_slash remote_path)

/-- `load_config` (lines 20-35) with the ambient environment variable and
config file made explicit.  Python's `if token:` treats an empty string as
false, so a set-but-empty variable falls through to the config file; the
file, when present, is returned whole; otherwise the function raises
(`none`). -/
def load_config (env : Option String) (file : Option Doc) : Option Doc :=
  match env with
  | some token => if token = "" then file else some [("access_token", token)]
  | none => file

/-- `get_git_changed_files` (lines 69-120), local mode, over explicit git
query results.  `tracking = none` models the `CalledProcessError` caught at
line 88 (no upstream tracking branch): its contribution is `[]`.  The
`changed` union is `list(set(...))`, modelled by `dedup`. -/
def get_git_changed_files_local (tracking : Option (List String))
    (unstaged staged untracked : List String) : List String × List String :=
  let changed_committed := tracking.getD []
  (((changed_committed ++ unstaged) ++ staged).dedup, untracked)

/-- Run one upload loop of `main` (e.g. lines 255-256): process each file
in order, recording the `(local, remote)` upload of each success; the first
raised error aborts the loop, keeping the uploads already made. -/
def run_uploads (proc : String → Except ProcErr (String × String)) :
    List String → List (String × String) × Option ProcErr
  | [] => ([], none)
  | p :: rest =>
    match proc p with
    | .error e => ([], some e)
    | .ok u => (u :: (run_uploads proc rest).1, (run_uploads proc rest).2)

/-- Sequencing of two upload loops: the second runs only when the first
finished without an error; uploads accumulate. -/
def seq_runs (a b : List (String × String) × Option ProcErr) :
    List (String × String) × Option ProcErr :=
  match a.2 with
  | some e => (a.1, some e)
  | none => (a.1 ++ b.1, b.2)

/-- The three upload loops of `main` (lines 255-262): logsheets, then
teams, then images, strictly in that order; an error in one loop aborts
the whole batch, keeping all uploads already made. -/
def run_batch (fs : Fs) (c : Categories) : List (String × String) × Option ProcErr :=
  seq_runs (run_uploads (process_logsheet fs) c.logsheets)
    (seq_runs (run_uploads (process_team fs) c.teams)
      (run_uploads (process_image fs) c.images))

/-- An error that aborts a run of `main`. -/
inductive RunError where
  /-- `load_config` raised: no credential source present. -/
  | config
  /-- `config["access_token"]` raised: config object lacks the key. -/
  | missingToken
  /-- processing a file raised. -/
  | proc (e : ProcErr)
deriving DecidableEq

/-- Observable step of a run of `main`. -/
inductive Event where
  /-- credential resolution (`load_config()`, line 218). -/
  | loadConfig
  /-- change detection (`get_git_changed_files()`, line 221). -/
  | gitQuery
  /-- the "no relevant files" report (line 237). -/
  | reportNothing
  /-- one successful upload line (line 163). -/
  | upload (localPath remotePath : String)
  /-- the final "Upload complete." summary (line 264). -/
  | summary
deriving DecidableEq

/-- Ambient state a run of `main` observes (local mode). -/
structure World where
  envToken : Option String
  configFile : Option Doc
  gitTracking : Option (List String)
  gitUnstaged : List String
  gitStaged : List String
  gitUntracked : List String
  fs : Fs

/-- The change sets `main` works from (line 221), local mode. -/
def world_changed (w : World) : List String :=
  (get_git_changed_files_local w.gitTracking w.gitUnstaged w.gitStaged w.gitUntracked).1

/-- The new-file set `main` works from (line 221), local mode. -/
def world_new (w : World) : List String :=
  (get_git_changed_files_local w.gitTracking w.gitUnstaged w.gitStaged w.gitUntracked).2

/-- The upload candidates of a run: logsheets and teams from
`relevant_json` (line 225), images from `relevant_images` (line 228). -/
def world_cats (w : World) : Categories :=
  ⟨(json_candidates (world_changed w) (world_new w)).logsheets,
   (json_candidates (world_changed w) (world_new w)).teams,
   (image_candidates (world_new w)).images⟩

/-- `total_files` (lines 230-234). -/
def world_total (w : World) : Nat :=
  (world_cats w).logsheets.length + (world_cats w).teams.length + (world_cats w).images.length

/-- `main` (lines 214-264) in local mode: the trace of events of one run,
paired with the error that aborted it (`none` = clean exit, code 0).
Transport is the out-of-scope capability: each PUT succeeds. -/
def main_run (w : World) : List Event × Option RunError :=
  match load_config w.envToken w.configFile with
  | none => ([.loadConfig], some .config)
  | some config =>
    match lookupField config "access_token" with
    | none => ([.loadConfig], some .missingToken)
    | some _token =>
      if world_total w = 0 then
        ([.loadConfig, .gitQuery, .reportNothing], none)
      else
        let r := run_batch w.fs (world_cats w)
        ([.loadConfig, .gitQuery] ++ r.1.map (fun u => Event.upload u.1 u.2)
          ++ (if r.2 = none then [Event.summary] else []),
         r.2.map .proc)

/-- The first-match-wins loop computes three guarded filters. -/
theorem filter_relevant_files_eq (l : List String) :
    filter_relevant_files l =
      ⟨l.filter rule_logsheet, l.filter cat_team, l.filter cat_image⟩ := by
  induction l with
  | nil => rfl
  | cons p rest ih =>
    simp only [filter_relevant_files, ih, List.filter_cons, cat_team, cat_image]
    by_cases h1 : rule_logsheet p = true <;> by_cases h2 : rule_team p = true <;>
      by_cases h3 : rule_image p = true <;> simp [h1, h2, h3]

/-- `process_logsheet` uploads from the path it was given. -/
theorem process_logsheet_fst (fs : Fs) (q : String) (u : String × String)
    (h : process_logsheet fs q = Except.ok u) : u.1 = q := by
  cases hfs : fs q with
  | none => simp [process_logsheet, hfs] at h
  | some doc =>
    cases hid : lookupField doc "id" with
    | none => simp [process_logsheet, hfs, hid] at h
    | some i =>
      cases hv : lookupField doc "version" with
      | none => simp [process_logsheet, hfs, hid, hv] at h
      | some v =>
        simp only [process_logsheet, hfs, hid, hv, Except.ok.injEq] at h
        simp [← h]

/-- `process_team` uploads from the path it was given. -/
theorem process_team_fst (fs : Fs) (q : String) (u : String × String)
    (h : process_team fs q = Except.ok u) : u.1 = q := by
  cases hfs : fs q with
  | none => simp [process_team, hfs] at h
  | some doc =>
    cases hid : lookupField doc "id" with
    | none => simp [process_team, hfs, hid] at h
    | some i =>
      cases hv : lookupField doc "version" with
      | none => simp [process_team, hfs, hid, hv] at h
      | some v =>
        simp only [process_team, hfs, hid, hv, Except.ok.injEq] at h
        simp [← h]

/-- An error-free upload loop records exactly one upload per input file,
in input order, keyed by the input path. -/
theorem run_uploads_all_ok (proc : String → Except ProcErr (String × String))
    (hfst : ∀ q u, proc q = Except.ok u → u.1 = q) :
    ∀ l : List String, (∀ q ∈ l, ∃ u, proc q = Except.ok u) →
      (run_uploads proc l).2 = none ∧ (run_uploads proc l).1.map Prod.fst = l := by
  intro l
  induction l with
  | nil => exact fun _ => ⟨rfl, rfl⟩
  | cons p rest ih =>
    intro hl
    obtain ⟨u, hu⟩ := hl p (by simp)
    have ih' := ih (fun q hq => hl q (by simp [hq]))
    simp only [run_uploads, hu]
    exact ⟨ih'.1, by simp [hfst p u hu, ih'.2]⟩

/-- An upload loop whose prefix succeeds and whose next file raises stops
there, keeping exactly the prefix's uploads. -/
theorem run_uploads_prefix_error (proc : String → Except ProcErr (String × String))
    (p : String) (e : ProcErr) (hp : proc p = Except.error e) :
    ∀ pre rest : List String, (∀ q ∈ pre, ∃ u, proc q = Except.ok u) →
      run_uploads proc (pre ++ p :: rest) = ((run_uploads proc pre).1, some e) := by
  intro pre
  induction pre with
  | nil => intro rest _; simp [run_uploads, hp]
  | cons q pre ih =>
    intro rest hpre
    obtain ⟨u, hu⟩ := hpre q (by simp)
    have ih' := ih rest (fun r hr => hpre r (by simp [hr]))
    simp only [List.append_eq] at ih'
    simp only [List.cons_append, run_uploads, hu, List.append_eq, ih']

/-- The image loop never raises: one upload per image, in order. -/
theorem run_uploads_image (fs : Fs) (l : List String) :
    run_uploads (process_image fs) l = (l.map (fun p => (p, image_remote_path p)), none) := by
  induction l with
  | nil => rfl
  | cons p rest ih => simp [run_uploads, process_image, ih]

/-- `run_batch` with error-free logsheet and team loops is the
concatenation of the three loops' uploads. -/
theorem run_batch_ok (fs : Fs) (c : Categories)
    (h1 : (run_uploads (process_logsheet fs) c.logsheets).2 = none)
    (h2 : (run_uploads (process_team fs) c.teams).2 = none) :
    run_batch fs c
      = ((run_uploads (process_logsheet fs) c.logsheets).1
          ++ ((run_uploads (process_team fs) c.teams).1
            ++ (run_uploads (process_image fs) c.images).1),
         (run_uploads (process_image fs) c.images).2) := by
  simp [run_batch, seq_runs, h1, h2]

/-- C1: the orchestrator derives logsheet and team upload candidates by
classifying the deduplicated union `changed ∪ new`, and image upload
candidates by classifying `new` only; on
`changed = ["logsheets/a.json"]`, `new = ["logsheets/b.json", "images/c.png"]`
the JSON candidate set is `{logsheets/a.json, logsheets/b.json}` and the
image candidate set is `{images/c.png}`. -/
theorem claim_c1_candidate_derivation :
    (∀ (changed new : List String) (p : String),
      (p ∈ (json_candidates changed new).logsheets
        ↔ (p ∈ changed ∨ p ∈ new) ∧ rule_logsheet p = true)
      ∧ (p ∈ (json_candidates changed new).teams
        ↔ (p ∈ changed ∨ p ∈ new) ∧ cat_team p = true)
      ∧ (p ∈ (image_candidates new).images ↔ p ∈ new ∧ cat_image p = true))
    ∧ (json_candidates ["logsheets/a.json"] ["logsheets/b.json", "images/c.png"]).logsheets.Perm
        ["logsheets/a.json", "logsheets/b.json"]
    ∧ (json_candidates ["logsheets/a.json"] ["logsheets/b.json", "images/c.png"]).teams = []
    ∧ (image_candidates ["logsheets/b.json", "images/c.png"]).images = ["images/c.png"] := by
  refine ⟨fun changed new p => ⟨?_, ?_, ?_⟩, by decide, by decide, by decide⟩ <;>
    simp [json_candidates, image_candidates, filter_relevant_files_eq, List.mem_filter,
      List.mem_dedup, List.mem_append]

/-- C2: classifying a singleton `[p]` places `p` in at most one category,
by the ordered first-match-wins rules (logsheets, then teams, then images,
else discard); the four cited examples behave as stated. -/
theorem claim_c2_singleton_classification : ∀ p : String,
    (filter_relevant_files [p]).logsheets.length + (filter_relevant_files [p]).teams.length
        + (filter_relevant_files [p]).images.length ≤ 1
    ∧ (filter_relevant_files [p]).logsheets = (if rule_logsheet p then [p] else [])
    ∧ (filter_relevant_files [p]).teams = (if cat_team p then [p] else [])
    ∧ (filter_relevant_files [p]).images = (if cat_image p then [p] else [])
    ∧ filter_relevant_files ["logsheets/a.json"] = ⟨["logsheets/a.json"], [], []⟩
    ∧ filter_relevant_files ["logsheets/a.txt"] = ⟨[], [], []⟩
    ∧ filter_relevant_files ["images/x.png"] = ⟨[], [], ["images/x.png"]⟩
    ∧ filter_relevant_files ["teams/x.json"] = ⟨[], ["teams/x.json"], []⟩ := by
  intro p
  rw [filter_relevant_files_eq]
  refine ⟨?_, by simp [List.filter_cons], by simp [List.filter_cons], by simp [List.filter_cons],
    by decide, by decide, by decide, by decide⟩
  by_cases h1 : rule_logsheet p = true <;> by_cases h2 : rule_team p = true <;>
    by_cases h3 : rule_image p = true <;>
    simp [List.filter_cons, cat_team, cat_image, h1, h2, h3]

/-- C3: the remote path builder is pure and deterministic: a logsheet
record with fields `id`, `version` maps to `logsheets/{id}/{version}.json`,
a team record to `teams/{id}/{version}.json`, an image path to
`images/{basename(path)}`; calling it twice on the same inputs is
identical. -/
theorem claim_c3_remote_path_builder :
    (∀ (fs : Fs) (p : String) (doc : Doc) (i v : String),
      fs p = some doc → lookupField doc "id" = some i → lookupField doc "version" = some v →
        process_logsheet fs p = Except.ok (p, logsheet_remote_path i v)
        ∧ process_team fs p = Except.ok (p, team_remote_path i v))
    ∧ (∀ (fs : Fs) (p : String), process_image fs p = Except.ok (p, image_remote_path p))
    ∧ (∀ i v, logsheet_remote_path i v = "logsheets/" ++ i ++ "/" ++ v ++ ".json")
    ∧ (∀ i v, team_remote_path i v = "teams/" ++ i ++ "/" ++ v ++ ".json")
    ∧ (∀ p, image_remote_path p = "images/" ++ py_basename p)
    ∧ (∀ i v, logsheet_remote_path i v = logsheet_remote_path i v
        ∧ team_remote_path i v = team_remote_path i v)
    ∧ (∀ p, image_remote_path p = image_remote_path p)
    ∧ logsheet_remote_path "ALPHA" "3" = "logsheets/ALPHA/3.json"
    ∧ py_basename "images/sub/c.png" = "c.png" := by
  refine ⟨?_, fun fs p => rfl, fun i v => rfl, fun i v => rfl, fun p => rfl,
    fun i v => ⟨rfl, rfl⟩, fun p => rfl, by decide, by decide⟩
  intro fs p doc i v hfs hid hv
  constructor <;> simp [process_logsheet, process_team, hfs, hid, hv]

/-- C3 witness: a concrete logsheet record routed by the builder. -/
theorem claim_c3_witness :
    process_logsheet
        (fun q => if q = "logsheets/alpha.json"
          then some [("id", "ALPHA"), ("version", "3")] else none)
        "logsheets/alpha.json"
      = Except.ok ("logsheets/alpha.json", logsheet_remote_path "ALPHA" "3") :=
  (claim_c3_remote_path_builder.1
    (fun q => if q = "logsheets/alpha.json"
      then some [("id", "ALPHA"), ("version", "3")] else none)
    "logsheets/alpha.json" [("id", "ALPHA"), ("version", "3")] "ALPHA" "3"
    (by decide) (by decide) (by decide)).1

/-- C4 counterexample: the claim "any status other than 201/405 aborts"
fails at status 200, which `raise_for_status` does not raise on. -/
theorem claim_c4_counterexample :
    ¬ ∀ s : Nat, ¬(s = 201 ∨ s = 405) → mkcol_aborts s = true := by
  intro h
  exact absurd (h 200 (by decide)) (by decide)

/-- C4 amended: a MKCOL status of 201 or 405 is tolerated, and an
intolerable status aborts exactly when it is an HTTP error status
(4xx/5xx, per `raise_for_status`); in particular 405 does not abort a
directory-creation run and 500 does. -/
theorem claim_c4_status_tolerance :
    (∀ s : Nat, mkcol_aborts s = false ↔ (s = 201 ∨ s = 405 ∨ s < 400 ∨ 600 ≤ s))
    ∧ mkcol_aborts 405 = false ∧ mkcol_aborts 500 = true
    ∧ create_directory (fun _ => 405) "logsheets/ALPHA" = true
    ∧ create_directory (fun _ => 500) "logsheets/ALPHA" = false := by
  refine ⟨fun s => ?_, by decide, by decide, by decide, by decide⟩
  simp only [mkcol_aborts, raise_for_status, Bool.and_eq_false_iff, Bool.not_eq_true',
    Bool.not_eq_false', Bool.or_eq_true, beq_iff_eq, Bool.or_eq_false_iff, decide_eq_true_eq,
    decide_eq_false_iff_not]
  omega

/-- C6 counterexample: resolution does not always use a present
environment variable: a set-but-empty variable falls through to the
config file (Python truthiness of the token). -/
theorem claim_c6_counterexample :
    ¬ ∀ (t : String) (file : Option Doc),
        load_config (some t) file = some [("access_token", t)] := by
  intro h
  exact absurd (h "" (some [("access_token", "x")])) (by decide)

/-- C6 amended: a non-empty environment token wins; an absent — or
set-but-empty — variable falls back to the config file; with no
environment token and no config file, resolution fails. -/
theorem claim_c6_credential_resolution :
    ∀ (t : String) (file : Option Doc),
      (t ≠ "" → load_config (some t) file = some [("access_token", t)])
      ∧ load_config none file = file
      ∧ load_config (some "") file = file
      ∧ load_config none none = none
      ∧ load_config (some "") none = none := by
  intro t file
  refine ⟨fun h => by simp [load_config, h], rfl, by simp [load_config], rfl,
    by simp [load_config]⟩

/-- C6 witness: a concrete non-empty environment token is used. -/
theorem claim_c6_witness :
    load_config (some "tok") none = some [("access_token", "tok")] :=
  (claim_c6_credential_resolution "tok" none).1 (by decide)

/-- C7: in local mode the tracking-branch lookup is best-effort (a failed
lookup contributes the empty set and the run goes on); the changed set is
the union of the committed-but-unpushed, unstaged and staged diffs, and
the new set is the untracked list. -/
theorem claim_c7_local_best_effort :
    ∀ (tracking : Option (List String)) (unstaged staged untracked : List String),
      (tracking = none →
        get_git_changed_files_local tracking unstaged staged untracked
          = ((unstaged ++ staged).dedup, untracked))
      ∧ (∀ p, p ∈ (get_git_changed_files_local tracking unstaged staged untracked).1
          ↔ (p ∈ tracking.getD [] ∨ p ∈ unstaged ∨ p ∈ staged))
      ∧ (get_git_changed_files_local tracking unstaged staged untracked).2 = untracked := by
  intro tracking unstaged staged untracked
  refine ⟨fun h => by subst h; rfl, fun p => ?_, rfl⟩
  simp [get_git_changed_files_local, List.mem_dedup, List.mem_append, or_assoc]

/-- C7 witness: with no tracking branch, the run proceeds on
unstaged ∪ staged and the untracked list. -/
theorem claim_c7_witness :
    get_git_changed_files_local none ["a"] ["b"] ["c"] = ((["a"] ++ ["b"]).dedup, ["c"]) :=
  (claim_c7_local_best_effort none ["a"] ["b"] ["c"]).1 rfl

/-- C9: the classifier is pure: permuting the input permutes each
category's content without changing it as a set, and each category list
preserves the relative order of the input (it is a sublist of it). -/
theorem claim_c9_classifier_pure :
    (∀ l₁ l₂ : List String, l₁.Perm l₂ →
      (filter_relevant_files l₁).logsheets.Perm (filter_relevant_files l₂).logsheets
      ∧ (filter_relevant_files l₁).teams.Perm (filter_relevant_files l₂).teams
      ∧ (filter_relevant_files l₁).images.Perm (filter_relevant_files l₂).images)
    ∧ (∀ l : List String,
      (filter_relevant_files l).logsheets.Sublist l
      ∧ (filter_relevant_files l).teams.Sublist l
      ∧ (filter_relevant_files l).images.Sublist l) := by
  constructor
  · intro l₁ l₂ h
    rw [filter_relevant_files_eq, filter_relevant_files_eq]
    exact ⟨h.filter _, h.filter _, h.filter _⟩
  · intro l
    rw [filter_relevant_files_eq]
    exact ⟨List.filter_sublist _, List.filter_sublist _, List.filter_sublist _⟩

/-- C9 witness: a concrete permutation of a two-path input permutes the
image category. -/
theorem claim_c9_witness :
    (filter_relevant_files ["teams/x.json", "images/x.png"]).images.Perm
      (filter_relevant_files ["images/x.png", "teams/x.json"]).images :=
  (claim_c9_classifier_pure.1 ["teams/x.json", "images/x.png"]
    ["images/x.png", "teams/x.json"] (by decide)).2.2

/-- C5: a logsheet whose document lacks `id` or `version` raises before
any upload of that file; the batch stops there and the uploads of the
files processed earlier remain (exactly the prefix's uploads). -/
theorem claim_c5_missing_field_aborts :
    ∀ (fs : Fs) (pre rest teams imgs : List String) (p : String) (doc : Doc),
      (∀ q ∈ pre, ∃ u, process_logsheet fs q = Except.ok u) →
      fs p = some doc →
      (lookupField doc "id" = none ∨ lookupField doc "version" = none) →
      ∃ key, run_batch fs ⟨pre ++ p :: rest, teams, imgs⟩
          = ((run_uploads (process_logsheet fs) pre).1,
             some (ProcErr.missingField p key))
        ∧ (∀ q ∈ pre, ∃ r, (q, r) ∈ (run_batch fs ⟨pre ++ p :: rest, teams, imgs⟩).1)
        ∧ (∀ r, (p, r) ∉ (run_batch fs ⟨pre ++ p :: rest, teams, imgs⟩).1) := by
  intro fs pre rest teams imgs p doc hpre hfs hmiss
  have hok := run_uploads_all_ok (process_logsheet fs) (process_logsheet_fst fs) pre hpre
  obtain ⟨key, herr⟩ : ∃ key, process_logsheet fs p
      = Except.error (ProcErr.missingField p key) := by
    cases hid : lookupField doc "id" with
    | none => exact ⟨"id", by simp [process_logsheet, hfs, hid]⟩
    | some i =>
      have hv : lookupField doc "version" = none := by
        rcases hmiss with h | h
        · rw [hid] at h; exact absurd h (by simp)
        · exact h
      exact ⟨"version", by simp [process_logsheet, hfs, hid, hv]⟩
  have hloop := run_uploads_prefix_error (process_logsheet fs) p _ herr pre rest hpre
  have hbatch : run_batch fs ⟨pre ++ p :: rest, teams, imgs⟩
      = ((run_uploads (process_logsheet fs) pre).1,
         some (ProcErr.missingField p key)) := by
    simp [run_batch, seq_runs, hloop]
  refine ⟨key, hbatch, ?_, ?_⟩
  · intro q hq
    rw [hbatch]
    have hq' : q ∈ (run_uploads (process_logsheet fs) pre).1.map Prod.fst := by
      rw [hok.2]; exact hq
    obtain ⟨u, hu, hfstq⟩ := List.mem_map.mp hq'
    exact ⟨u.2, by rw [← hfstq]; simpa using hu⟩
  · intro r hr
    rw [hbatch] at hr
    have hp' : p ∈ (run_uploads (process_logsheet fs) pre).1.map Prod.fst :=
      List.mem_map.mpr ⟨(p, r), hr, rfl⟩
    rw [hok.2] at hp'
    obtain ⟨u, hu⟩ := hpre p hp'
    rw [herr] at hu
    exact absurd hu (by simp)

/-- C5 witness: a good logsheet followed by one lacking `version`: the
run stops at the bad file, the good upload remains. -/
theorem claim_c5_witness :
    ∃ key, run_batch
        (fun q => if q = "logsheets/ok.json" then some [("id", "OK"), ("version", "1")]
          else if q = "logsheets/bad.json" then some [("id", "BAD")] else none)
        ⟨["logsheets/ok.json"] ++ "logsheets/bad.json" :: [], [], []⟩
      = ((run_uploads (process_logsheet
            (fun q => if q = "logsheets/ok.json" then some [("id", "OK"), ("version", "1")]
              else if q = "logsheets/bad.json" then some [("id", "BAD")] else none))
          ["logsheets/ok.json"]).1,
         some (ProcErr.missingField "logsheets/bad.json" key))
      ∧ (∀ q ∈ ["logsheets/ok.json"], ∃ r, (q, r) ∈ (run_batch
          (fun q => if q = "logsheets/ok.json" then some [("id", "OK"), ("version", "1")]
            else if q = "logsheets/bad.json" then some [("id", "BAD")] else none)
          ⟨["logsheets/ok.json"] ++ "logsheets/bad.json" :: [], [], []⟩).1)
      ∧ (∀ r, ("logsheets/bad.json", r) ∉ (run_batch
          (fun q => if q = "logsheets/ok.json" then some [("id", "OK"), ("version", "1")]
            else if q = "logsheets/bad.json" then some [("id", "BAD")] else none)
          ⟨["logsheets/ok.json"] ++ "logsheets/bad.json" :: [], [], []⟩).1) :=
  claim_c5_missing_field_aborts
    (fun q => if q = "logsheets/ok.json" then some [("id", "OK"), ("version", "1")]
      else if q = "logsheets/bad.json" then some [("id", "BAD")] else none)
    ["logsheets/ok.json"] [] [] [] "logsheets/bad.json" [("id", "BAD")]
    (by
      intro q hq
      simp only [List.mem_singleton] at hq
      subst hq
      exact ⟨("logsheets/ok.json", logsheet_remote_path "OK" "1"), by rfl⟩)
    (by decide) (Or.inr (by decide))

/-- C8: with credentials resolved, an empty candidate set makes the run
report "nothing to do" and exit cleanly with no uploads; otherwise (all
records well-formed) every logsheet, then every team, then every image is
uploaded, strictly sequentially, with one event per upload and a final
summary, and the run exits cleanly. -/
theorem claim_c8_orchestration :
    ∀ (w : World) (config : Doc) (token : String),
      load_config w.envToken w.configFile = some config →
      lookupField config "access_token" = some token →
      (world_total w = 0 →
        main_run w = ([Event.loadConfig, Event.gitQuery, Event.reportNothing], none))
      ∧ (world_total w ≠ 0 →
         (∀ q ∈ (world_cats w).logsheets, ∃ u, process_logsheet w.fs q = Except.ok u) →
         (∀ q ∈ (world_cats w).teams, ∃ u, process_team w.fs q = Except.ok u) →
          main_run w
            = ([Event.loadConfig, Event.gitQuery]
                ++ ((run_uploads (process_logsheet w.fs) (world_cats w).logsheets).1
                  ++ ((run_uploads (process_team w.fs) (world_cats w).teams).1
                    ++ (run_uploads (process_image w.fs) (world_cats w).images).1)).map
                  (fun u => Event.upload u.1 u.2)
                ++ [Event.summary], none)
          ∧ (run_uploads (process_logsheet w.fs) (world_cats w).logsheets).1.map Prod.fst
              = (world_cats w).logsheets
          ∧ (run_uploads (process_team w.fs) (world_cats w).teams).1.map Prod.fst
              = (world_cats w).teams
          ∧ (run_uploads (process_image w.fs) (world_cats w).images).1.map Prod.fst
              = (world_cats w).images) := by
  intro w config token hcfg htok
  constructor
  · intro h0
    simp [main_run, hcfg, htok, h0]
  · intro hne hlog hteam
    have hok1 := run_uploads_all_ok (process_logsheet w.fs) (process_logsheet_fst w.fs)
      (world_cats w).logsheets hlog
    have hok2 := run_uploads_all_ok (process_team w.fs) (process_team_fst w.fs)
      (world_cats w).teams hteam
    have himg := run_uploads_image w.fs (world_cats w).images
    have hb := run_batch_ok w.fs (world_cats w) hok1.1 hok2.1
    refine ⟨?_, hok1.2, hok2.2, by simp [himg, Function.comp_def]⟩
    rw [himg] at hb
    simp [main_run, hcfg, htok, hne, hb, himg]

/-- C8 witness: a run with one well-formed logsheet candidate uploads it
between the git query and the summary and exits cleanly. -/
theorem claim_c8_witness :
    main_run ⟨some "tok", none, none, ["logsheets/alpha.json"], [], [],
        fun p => if p = "logsheets/alpha.json"
          then some [("id", "ALPHA"), ("version", "3")] else none⟩
      = ([Event.loadConfig, Event.gitQuery]
          ++ ((run_uploads (process_logsheet
                (fun p => if p = "logsheets/alpha.json"
                  then some [("id", "ALPHA"), ("version", "3")] else none))
              (world_cats ⟨some "tok", none, none, ["logsheets/alpha.json"], [], [],
                fun p => if p = "logsheets/alpha.json"
                  then some [("id", "ALPHA"), ("version", "3")] else none⟩).logsheets).1
            ++ ((run_uploads (process_team
                  (fun p => if p = "logsheets/alpha.json"
                    then some [("id", "ALPHA"), ("version", "3")] else none))
                (world_cats ⟨some "tok", none, none, ["logsheets/alpha.json"], [], [],
                  fun p => if p = "logsheets/alpha.json"
                    then some [("id", "ALPHA"), ("version", "3")] else none⟩).teams).1
              ++ (run_uploads (process_image
                    (fun p => if p = "logsheets/alpha.json"
                      then some [("id", "ALPHA"), ("version", "3")] else none))
                  (world_cats ⟨some "tok", none, none, ["logsheets/alpha.json"], [], [],
                    fun p => if p = "logsheets/alpha.json"
                      then some [("id", "ALPHA"), ("version", "3")] else none⟩).images).1)).map
            (fun u => Event.upload u.1 u.2)
          ++ [Event.summary], none) :=
  ((claim_c8_orchestration
    ⟨some "tok", none, none, ["logsheets/alpha.json"], [], [],
      fun p => if p = "logsheets/alpha.json"
        then some [("id", "ALPHA"), ("version", "3")] else none⟩
    [("access_token", "tok")] "tok" (by rfl) (by rfl)).2
    (by decide)
    (by
      intro q hq
      have hcats : (world_cats ⟨some "tok", none, none, ["logsheets/alpha.json"], [], [],
          fun p => if p = "logsheets/alpha.json"
            then some [("id", "ALPHA"), ("version", "3")] else none⟩).logsheets
          = ["logsheets/alpha.json"] := by decide
      rw [hcats] at hq
      simp only [List.mem_singleton] at hq
      subst hq
      exact ⟨("logsheets/alpha.json", logsheet_remote_path "ALPHA" "3"), by rfl⟩)
    (by
      intro q hq
      have hcats : (world_cats ⟨some "tok", none, none, ["logsheets/alpha.json"], [], [],
          fun p => if p = "logsheets/alpha.json"
            then some [("id", "ALPHA"), ("version", "3")] else none⟩).teams = [] := by decide
      rw [hcats] at hq
      exact absurd hq (by simp))).1

/-- C10: credential resolution precedes change detection: with no
credential source the run aborts with the configuration error before any
git query — even when the change set is empty — and a clean exit is only
reachable when a credential was resolved. -/
theorem claim_c10_credentials_before_git :
    ∀ w : World,
      (load_config w.envToken w.configFile = none →
        main_run w = ([Event.loadConfig], some RunError.config)
        ∧ Event.gitQuery ∉ (main_run w).1
        ∧ ∀ l r, Event.upload l r ∉ (main_run w).1)
      ∧ ((main_run w).2 = none →
        ∃ config token, load_config w.envToken w.configFile = some config
          ∧ lookupField config "access_token" = some token) := by
  intro w
  constructor
  · intro h
    have hm : main_run w = ([Event.loadConfig], some RunError.config) := by
      simp [main_run, h]
    exact ⟨hm, by simp [hm], fun l r => by simp [hm]⟩
  · intro h
    cases hc : load_config w.envToken w.configFile with
    | none => simp [main_run, hc] at h
    | some config =>
      cases ht : lookupField config "access_token" with
      | none => simp [main_run, hc, ht] at h
      | some token => exact ⟨config, token, rfl, ht⟩

/-- C10 witness: no credentials and an empty change set still abort with
the configuration error, with no git query in the trace. -/
theorem claim_c10_witness :
    main_run ⟨none, none, none, [], [], [], fun _ => none⟩
      = ([Event.loadConfig], some RunError.config) :=
  ((claim_c10_credentials_before_git ⟨none, none, none, [], [], [], fun _ => none⟩).1 rfl).1

end TRECollect
